import Mathlib

/-!
Verification of the dsh-etl-search-ai metadata reconciliation pipeline and the
search API against their natural-language specification.

The definitions below are a shallow embedding of the program's code:

* `ETL`: the `_merge_all_formats` coalescing merge, `DatasetRepository.add`
  validation, and `ETLPipeline.process_dataset`, translated from the backend
  implementation (Python dictionaries become structures of `Option` fields,
  Python truthiness is modelled explicitly, the SQL session becomes an explicit
  store value threaded through the pipeline).
* `Extractor`: the `BaseExtractor` template method (`extract`, `_fetch_data`
  retry loop, `_validate_source`); network attempts become an explicit
  `Nat → Except String String` oracle.
* `SearchAPI`: the `semantic_search` and `hybrid_search` endpoints together
  with `SemanticSearchRequest` validation; the FAISS engine becomes an
  abstract `String → Nat → List EngineResult` function and the relational
  store a `List DatasetRow`.
* `Frontend`: the `formatOrcidUrl` utility and the Svelte filter store
  (`resetFilters`, `activeFilterCount`, `hasActiveFilters`).
-/

namespace ETL

/-- Spatial extent value object (west/east/south/north bounding box),
as passed through the merge untouched. -/
structure SpatialExtent where
  west : Option Int
  east : Option Int
  south : Option Int
  north : Option Int
deriving DecidableEq

/-- Contact owned entity: the fields relevant to identity are the full name
and the e-mail address. -/
structure Contact where
  full_name : Option String
  email : Option String
deriving DecidableEq

/-- Keyword owned entity: keyword text plus optional ontology URI
(`in_defined_term_set`). -/
structure Keyword where
  keyword : String
  in_defined_term_set : Option String
deriving DecidableEq

/-- Entry of the JSON-LD `keywords_with_term_sets` list. -/
structure TermSetEntry where
  keyword : String
  in_defined_term_set : Option String
deriving DecidableEq

/-- Raw source document stored for traceability (`MetadataDocument`). -/
structure MetadataDocument where
  format : String
  content : String
  file_size : Nat
deriving DecidableEq

/-- Parsed per-format extraction result: the dictionary returned by one
extractor. Every key access in the merge code is `d.get(key)`, so every
field is optional. -/
structure SourceData where
  file_identifier : Option String := none
  title : Option String := none
  abstract : Option String := none
  lineage : Option String := none
  publication_date : Option String := none
  metadata_date : Option String := none
  updated_date : Option String := none
  date_published : Option String := none
  metadata_standard : Option String := none
  metadata_standard_version : Option String := none
  language : Option String := none
  language_uri : Option String := none
  credit_text : Option String := none
  bibliographic_citation : Option String := none
  additional_metadata : Option String := none
  spatial_extent : Option SpatialExtent := none
  spatial_coverage : Option SpatialExtent := none
  contacts : Option (List Contact) := none
  keywords : Option (List Keyword) := none
  keywords_with_term_sets : Option (List TermSetEntry) := none
  relationships : Option (List String) := none
  online_resources : Option (List String) := none
  raw_xml : Option String := none
  raw_xml_size : Option Nat := none
  raw_json : Option String := none
  raw_json_size : Option Nat := none
deriving DecidableEq

/-- Unified dataset record produced by the merge (`Dataset`). -/
structure Dataset where
  file_identifier : Option String
  title : Option String
  abstract : Option String
  lineage : Option String
  publication_date : Option String
  metadata_date : Option String
  updated_date : Option String
  metadata_standard : Option String
  metadata_standard_version : Option String
  language : Option String
  credit_text : Option String
  additional_metadata : Option String
  spatial_extent : Option SpatialExtent
  contacts : List Contact
  keywords : List Keyword
  relationships : List String
  online_resources : List String
  metadata_documents : List MetadataDocument
deriving DecidableEq

/-- Access a key of an optional source dictionary:
models `src.get(key) if src else None`. -/
def srcGet {α : Type} (d : Option SourceData) (f : SourceData → Option α) : Option α :=
  match d with
  | none => none
  | some v => f v

/-- The merge code's `coalesce(*values)` helper:
`next((v for v in values if v is not None), None)`. -/
def coalesce {α : Type} : List (Option α) → Option α
  | [] => none
  | none :: rest => coalesce rest
  | some v :: _ => some v

/-- Python truthiness of an optional list value (`if x and x.get(k):`):
`None` and the empty list are falsy. -/
def truthyList {α : Type} (o : Option (List α)) : Option (List α) :=
  match o with
  | some (x :: xs) => some (x :: xs)
  | _ => none

/-- Python truthiness of an optional string value: `None` and `""` are falsy. -/
def truthyStr (o : Option String) : Option String :=
  match o with
  | some s => if s = "" then none else some s
  | none => none

/-- Lookup in a Python dict built by a comprehension over a list of pairs:
a later pair with the same key overwrites an earlier one, so the last
occurrence wins. -/
def dictLookup (l : List (String × Option String)) (k : String) : Option (Option String) :=
  (l.reverse.find? (fun p => p.1 = k)).map (fun p => p.2)

/-- Keyword enrichment step of the merge: when the JSON-LD term-set dict has
an entry for the keyword text, its URI value (possibly `None`) is assigned. -/
def enrichKeyword (ts : List (String × Option String)) (kw : Keyword) : Keyword :=
  match dictLookup ts kw.keyword with
  | some v => { kw with in_defined_term_set := v }
  | none => kw

/-- The `ETLPipeline._merge_all_formats` function: per-field source-priority
coalescing for scalar fields, priority selection for collections, JSON-LD
keyword enrichment, and retention of raw XML/JSON documents. -/
def mergeAllFormats (xml_data json_data jsonld_data rdf_data : Option SourceData)
    (file_identifier : String) : Dataset :=
  let contacts0 :=
    (coalesce [truthyList (srcGet json_data SourceData.contacts),
               truthyList (srcGet xml_data SourceData.contacts)]).getD []
  let keywords0 :=
    (coalesce [truthyList (srcGet json_data SourceData.keywords),
               truthyList (srcGet xml_data SourceData.keywords)]).getD []
  let keywords1 :=
    match truthyList (srcGet jsonld_data SourceData.keywords_with_term_sets) with
    | some entries =>
        let ts := entries.map (fun e => (e.keyword, e.in_defined_term_set))
        keywords0.map (enrichKeyword ts)
    | none => keywords0
  let xmlDocs :=
    match truthyStr (srcGet xml_data SourceData.raw_xml) with
    | some s => [{ format := "xml", content := s,
                   file_size := (srcGet xml_data SourceData.raw_xml_size).getD 0 : MetadataDocument }]
    | none => []
  let jsonDocs :=
    match truthyStr (srcGet json_data SourceData.raw_json) with
    | some s => [{ format := "json", content := s,
                   file_size := (srcGet json_data SourceData.raw_json_size).getD 0 : MetadataDocument }]
    | none => []
  { file_identifier := coalesce [srcGet json_data SourceData.file_identifier,
                                 srcGet xml_data SourceData.file_identifier,
                                 some file_identifier]
    title := coalesce [srcGet json_data SourceData.title,
                       srcGet jsonld_data SourceData.title,
                       srcGet xml_data SourceData.title,
                       srcGet rdf_data SourceData.title]
    abstract := coalesce [srcGet json_data SourceData.abstract,
                          srcGet jsonld_data SourceData.abstract,
                          srcGet xml_data SourceData.abstract,
                          srcGet rdf_data SourceData.abstract]
    lineage := coalesce [srcGet json_data SourceData.lineage,
                         srcGet xml_data SourceData.lineage]
    publication_date := coalesce [srcGet json_data SourceData.publication_date,
                                  srcGet xml_data SourceData.publication_date,
                                  srcGet jsonld_data SourceData.date_published]
    metadata_date := coalesce [srcGet json_data SourceData.metadata_date,
                               srcGet xml_data SourceData.metadata_date]
    updated_date := srcGet json_data SourceData.updated_date
    metadata_standard := srcGet xml_data SourceData.metadata_standard
    metadata_standard_version := srcGet xml_data SourceData.metadata_standard_version
    language := coalesce [srcGet xml_data SourceData.language,
                          srcGet rdf_data SourceData.language_uri]
    credit_text := coalesce [srcGet jsonld_data SourceData.credit_text,
                             srcGet rdf_data SourceData.bibliographic_citation]
    additional_metadata := srcGet json_data SourceData.additional_metadata
    spatial_extent := coalesce [srcGet json_data SourceData.spatial_extent,
                                srcGet xml_data SourceData.spatial_extent,
                                srcGet jsonld_data SourceData.spatial_coverage]
    contacts := contacts0
    keywords := keywords1
    relationships := (truthyList (srcGet json_data SourceData.relationships)).getD []
    online_resources := (truthyList (srcGet json_data SourceData.online_resources)).getD []
    metadata_documents := xmlDocs ++ jsonDocs }

/-- Characters Python's `str.strip()` removes and `str.isspace()` accepts. -/
def isPyWhitespace (c : Char) : Bool :=
  c = ' ' || c = '\t' || c = '\n' || c = '\r' || c = '\x0b' || c = '\x0c'

/-- Truth of `not dataset.title or not dataset.title.strip()`: the title is
missing, empty, or whitespace-only. -/
def titleEmptyB (t : Option String) : Bool :=
  match t with
  | none => true
  | some s => s.toList.all isPyWhitespace

/-- Truth of `not dataset.file_identifier`: missing or empty string. -/
def fidFalsy (t : Option String) : Bool :=
  match t with
  | none => true
  | some s => s = ""

/-- The `DatasetRepository.add` validation and insert: reject an empty title,
a falsy file identifier, or a duplicate natural key; otherwise append the
record to the store. -/
def repositoryAdd (d : Dataset) (store : List Dataset) : Except String (List Dataset) :=
  if titleEmptyB d.title then .error "Dataset title is required"
  else if fidFalsy d.file_identifier then .error "File identifier is required"
  else if (store.find? (fun e => e.file_identifier = d.file_identifier)).isSome then
    .error "Dataset already exists"
  else .ok (store ++ [d])

/-- Truth of `any([xml_data, json_data, jsonld_data, rdf_data])`: at least one
extractor produced a result. -/
def anyIsSome (xml_data json_data jsonld_data rdf_data : Option SourceData) : Bool :=
  xml_data.isSome || json_data.isSome || jsonld_data.isSome || rdf_data.isSome

/-- The `ETLPipeline.process_dataset` workflow after the four per-format
extraction attempts (each already an `Option`, since `_extract_*` converts
failures to `None`): fail when no format succeeded, otherwise merge and add;
a raise inside the `try` rolls back, leaving the store unchanged, and yields
`None`. -/
def processDataset (xml_data json_data jsonld_data rdf_data : Option SourceData)
    (file_identifier : String) (store : List Dataset) : Option Dataset × List Dataset :=
  if anyIsSome xml_data json_data jsonld_data rdf_data = false then (none, store)
  else
    let d := mergeAllFormats xml_data json_data jsonld_data rdf_data file_identifier
    match repositoryAdd d store with
    | .ok store' => (some d, store')
    | .error _ => (none, store)

/-- First non-null value of an ordered candidate list, stated independently of
the merge code's own recursion: the first element of the list that is `some`. -/
def firstNonNull {α : Type} (l : List (Option α)) : Option α :=
  (l.find? Option.isSome).join

end ETL

namespace Extractor

/-- List-level check that `hay` begins with `needle`. -/
def startsWithL : List Char → List Char → Bool
  | _, [] => true
  | [], _ :: _ => false
  | h :: hs, n :: ns => h = n && startsWithL hs ns

/-- String begins-with check used by `_validate_source` (`str.startswith`). -/
def pyStartsWith (s pre : String) : Bool :=
  startsWithL s.toList pre.toList

/-- The `BaseExtractor._validate_source` check: a non-empty string that is an
`http://` or `https://` URL. -/
def validateSource (source : String) : Bool :=
  source ≠ "" && (pyStartsWith source "http://" || pyStartsWith source "https://")

/-- The retry loop of `BaseExtractor._fetch_data`: `attempt i` is the network
outcome of the `i`-th request (`.error` models `requests.RequestException`).
The loop returns the first successful payload; when the final allowed attempt
fails it raises `Failed after N attempts`, and were the loop to fall through
(zero configured attempts) the trailing raise fires. -/
def fetchAttempts (attempt : Nat → Except String String) (retry_count : Nat) :
    Nat → Nat → Except String String
  | 0, _ => .error "Failed to fetch data"
  | remaining + 1, idx =>
    match attempt idx with
    | .ok content => .ok content
    | .error e =>
      if remaining = 0 then
        .error ("Failed after " ++ toString retry_count ++ " attempts: " ++ e)
      else fetchAttempts attempt retry_count remaining (idx + 1)

/-- The `BaseExtractor._fetch_data` entry point: up to `retry_count` attempts,
starting at attempt index `0`. -/
def fetchData (retry_count : Nat) (attempt : Nat → Except String String) :
    Except String String :=
  fetchAttempts attempt retry_count retry_count 0

/-- The `BaseExtractor.extract` template method: validate the source, fetch
with retries, parse (format-specific callback), validate the parsed result;
any failure is wrapped into an `ExtractionError` whose message names the
source and the underlying cause. -/
def extract {α : Type} (source : String) (retry_count : Nat)
    (attempt : Nat → Except String String)
    (parseData : String → Except String α) (validate : α → Bool) :
    Except String α :=
  let inner : Except String α :=
    if validateSource source = false then .error ("Invalid source: " ++ source)
    else
      match fetchData retry_count attempt with
      | .error e => .error e
      | .ok raw =>
        match parseData raw with
        | .error e => .error e
        | .ok parsed =>
          if validate parsed = false then .error "Data validation failed"
          else .ok parsed
  match inner with
  | .ok parsed => .ok parsed
  | .error e => .error ("Failed to extract from " ++ source ++ ": " ++ e)

end Extractor

namespace SearchAPI

/-- One raw hit returned by `SemanticSearchEngine.search`: slot rank, the
record's surrogate and natural keys, and its similarity score (scores are
only carried, never computed on, so they are modelled as integers). -/
structure EngineResult where
  rank : Nat
  dataset_id : String
  file_identifier : String
  similarity_score : Int
deriving DecidableEq

/-- Spatial extent row as stored with a dataset. -/
structure SpatialBox where
  west : Int
  east : Int
  south : Int
  north : Int
deriving DecidableEq

/-- One `DatasetModel` row joined with its owned contact names, keywords and
spatial extent; publication dates are modelled as ordered day numbers. -/
structure DatasetRow where
  id : String
  title : Option String
  abstract : Option String
  publication_date : Option Nat
  keywords : List String
  contact_names : List String
  spatial_extent : Option SpatialBox
deriving DecidableEq

/-- One enriched `SearchResultItem`. -/
structure SearchItem where
  rank : Nat
  dataset_id : String
  file_identifier : String
  similarity_score : Int
  title : Option String
  abstract : Option String
  publication_date : Option Nat
  keywords : List String
deriving DecidableEq

/-- Substring containment check on character lists (SQL `LIKE 'pct-n-pct'`,
i.e. the SQLAlchemy `.contains` operator). -/
def hasSubstr : List Char → List Char → Bool
  | hay, needle =>
    startsWithSub hay needle ||
      match hay with
      | [] => false
      | _ :: t => hasSubstr t needle
where
  /-- Begins-with check used by the containment scan. -/
  startsWithSub : List Char → List Char → Bool
    | _, [] => true
    | [], _ :: _ => false
    | h :: hs, n :: ns => h = n && startsWithSub hs ns

/-- SQL string containment lifted to `String`. -/
def strContains (hay needle : String) : Bool :=
  hasSubstr hay.toList needle.toList

/-- The `HybridSearchRequest` body (after pydantic validation): query, result
count, and the structured filters; `organizations` and `formats` are accepted
by the schema but never used when the filter list is built. -/
structure HybridRequest where
  query : String
  top_k : Nat
  authors : List String := []
  organizations : List String := []
  keywords : List String := []
  formats : List String := []
  start_date : Option Nat := none
  end_date : Option Nat := none

/-- Author predicate of the hybrid filter list: applied only when the request
carries authors, and satisfied when some contact name of the row contains
some requested author substring. -/
def authorPass (req : HybridRequest) (d : DatasetRow) : Bool :=
  req.authors.isEmpty ||
    d.contact_names.any (fun n => req.authors.any (fun a => strContains n a))

/-- Keyword predicate of the hybrid filter list: applied only when the
request carries keywords, and satisfied when some keyword of the row contains
some requested keyword substring. -/
def keywordPass (req : HybridRequest) (d : DatasetRow) : Bool :=
  req.keywords.isEmpty ||
    d.keywords.any (fun n => req.keywords.any (fun kw => strContains n kw))

/-- Date-range predicates of the hybrid filter list: SQL comparison against a
`NULL` publication date never holds, so a row without a date fails a supplied
bound. -/
def datePass (req : HybridRequest) (d : DatasetRow) : Bool :=
  (match req.start_date with
   | none => true
   | some s => match d.publication_date with
     | none => false
     | some p => s ≤ p) &&
  (match req.end_date with
   | none => true
   | some e => match d.publication_date with
     | none => false
     | some p => p ≤ e)

/-- The AND-combined filter `and_(*filters)` applied by the hybrid endpoint's
database query: candidate-id membership plus every supplied structured
predicate. -/
def rowPass (req : HybridRequest) (candidateIds : List String) (d : DatasetRow) : Bool :=
  candidateIds.contains d.id && authorPass req d && keywordPass req d && datePass req d

/-- Lookup in the `filtered_datasets` Python dict built from the query rows:
a later row with the same id overwrites an earlier one. -/
def dictGet (rows : List DatasetRow) (id : String) : Option DatasetRow :=
  rows.reverse.find? (fun d => d.id = id)

/-- Truncate a string to its first `n` characters (`s[:n]`). -/
def strTake (s : String) (n : Nat) : String :=
  String.mk (s.toList.take n)

/-- Build one `SearchResultItem` from a raw hit and its database row: the
abstract is truncated to 300 characters and only the first 5 keywords kept. -/
def mkItem (rank : Nat) (r : EngineResult) (d : DatasetRow) : SearchItem :=
  { rank := rank
    dataset_id := r.dataset_id
    file_identifier := r.file_identifier
    similarity_score := r.similarity_score
    title := d.title
    abstract := d.abstract.map (fun a => strTake a 300)
    publication_date := d.publication_date
    keywords := d.keywords.take 5 }

/-- The re-rank loop of the hybrid endpoint: walk the raw hits in similarity
order, keep those present in the filtered dict, renumber ranks from 1, and
break once `top_k` items have been emitted. -/
def rerankLoop (filtered : List DatasetRow) (topK : Nat) :
    List EngineResult → Nat → List SearchItem
  | [], _ => []
  | r :: rs, rank =>
    match dictGet filtered r.dataset_id with
    | none => rerankLoop filtered topK rs rank
    | some d =>
      if topK < rank + 1 then [mkItem rank r d]
      else mkItem rank r d :: rerankLoop filtered topK rs (rank + 1)

/-- The `/search/hybrid` endpoint body: oversample `3 * top_k` raw hits from
the engine, AND-filter the database rows restricted to those candidate ids,
then re-rank and truncate. -/
def hybrid_search (engine : String → Nat → List EngineResult)
    (db : List DatasetRow) (req : HybridRequest) : List SearchItem :=
  let results := engine req.query (req.top_k * 3)
  let candidateIds := results.map EngineResult.dataset_id
  let filtered := db.filter (rowPass req candidateIds)
  rerankLoop filtered req.top_k results 1

/-- The `/search/semantic` endpoint body after validation: raw hits from the
engine, each enriched from the database when its row exists (hits without a
stored row are dropped), keeping the engine's rank. -/
def semantic_search (engine : String → Nat → List EngineResult)
    (db : List DatasetRow) (query : String) (topK : Nat) : List SearchItem :=
  (engine query topK).filterMap
    (fun r => (db.find? (fun d => d.id = r.dataset_id)).map (fun d => mkItem r.rank r d))

/-- Python `str.strip()`. -/
def pyStrip (s : String) : String :=
  String.mk (((s.toList.dropWhile ETL.isPyWhitespace).reverse.dropWhile
    ETL.isPyWhitespace).reverse)

/-- A validated `SemanticSearchRequest`. -/
structure SemRequest where
  query : String
  top_k : Int

/-- Pydantic validation of `SemanticSearchRequest`: `query` has
`min_length=1`, `max_length=500` and must not be whitespace-only (the
validator also strips it); `top_k` must lie in `1..100`. -/
def mkSemanticSearchRequest (query : String) (top_k : Int) : Except String SemRequest :=
  if query.length < 1 then .error "query too short"
  else if 500 < query.length then .error "query too long"
  else if top_k < 1 then .error "top_k out of range"
  else if 100 < top_k then .error "top_k out of range"
  else if (pyStrip query).length = 0 then .error "Query cannot be empty"
  else .ok { query := pyStrip query, top_k := top_k }

/-- Boolean success test for `Except`. -/
def isOkB {ε α : Type} : Except ε α → Bool
  | .ok _ => true
  | .error _ => false

/-- The semantic search path as seen by a caller: request validation first,
and only a validated request reaches the engine. -/
def searchEndpoint (engine : String → Nat → List EngineResult)
    (db : List DatasetRow) (query : String) (top_k : Int) :
    Except String (List SearchItem) :=
  match mkSemanticSearchRequest query top_k with
  | .error e => .error e
  | .ok r => .ok (semantic_search engine db r.query r.top_k.toNat)

/-- Modelled from the spec: the spatial-bounds intersection predicate of
`hybridSearch` (`filters.spatial_bounds` in the data-flow design, absent from
the implemented `HybridSearchRequest`): two boxes intersect when they overlap
in both axes. -/
def spatialIntersects (a b : SpatialBox) : Bool :=
  a.west ≤ b.east && b.west ≤ a.east && a.south ≤ b.north && b.south ≤ a.north

end SearchAPI

namespace Frontend

/-- The frontend filter store state (`filters` writable store). -/
structure FilterState where
  query : String
  authors : List String
  organizations : List String
  keywords : List String
  startDate : Option String
  endDate : Option String
  formats : List String
  spatialExtent : Option String
deriving DecidableEq

/-- The fresh state `resetFilters` installs. -/
def initialFilters : FilterState :=
  { query := ""
    authors := []
    organizations := []
    keywords := []
    startDate := none
    endDate := none
    formats := []
    spatialExtent := none }

/-- The `resetFilters` action: `filters.set` of a fresh state, ignoring the
previous state. -/
def resetFilters (_prev : FilterState) : FilterState :=
  initialFilters

/-- The derived `activeFilterCount` store: one per non-empty filter group,
with the two dates counted together. -/
def activeFilterCount (f : FilterState) : Nat :=
  (if f.authors.length > 0 then 1 else 0) +
  (if f.organizations.length > 0 then 1 else 0) +
  (if f.keywords.length > 0 then 1 else 0) +
  (if f.startDate.isSome || f.endDate.isSome then 1 else 0) +
  (if f.formats.length > 0 then 1 else 0) +
  (if f.spatialExtent.isSome then 1 else 0)

/-- The derived `hasActiveFilters` store: `count > 0`. -/
def hasActiveFilters (f : FilterState) : Bool :=
  decide (0 < activeFilterCount f)

/-- The `formatOrcidUrl` utility over character-list strings: `none` models a
nullish argument and the empty list the falsy empty string. Inputs already
carrying a scheme are returned unchanged, `orcid.org/` inputs get a scheme,
and anything else is treated as a bare ORCID id. -/
def formatOrcidUrl : Option (List Char) → Option (List Char)
  | none => none
  | some s =>
    if s = [] then none
    else
      match SearchAPI.hasSubstr.startsWithSub s "http://".toList ||
            SearchAPI.hasSubstr.startsWithSub s "https://".toList,
            SearchAPI.hasSubstr.startsWithSub s "orcid.org/".toList with
      | true, _ => some s
      | false, true => some ("https://".toList ++ s)
      | false, false => some ("https://orcid.org/".toList ++ s)

end Frontend

namespace ETL

/-- Coalescing agrees with taking the first non-null candidate. -/
theorem coalesce_eq_firstNonNull {α : Type} (l : List (Option α)) :
    coalesce l = firstNonNull l := by
  induction l with
  | nil => rfl
  | cons h t ih =>
    cases h with
    | none => simpa [coalesce, firstNonNull, List.find?] using ih
    | some v => simp [coalesce, firstNonNull, List.find?]

/-- C1: for every scalar field with a defined source-priority order, the
merged record's field equals the first non-null value in that priority order
(title and abstract use `[json, jsonld, xml, rdf]`, lineage `[json, xml]`,
publication date `[json, xml, jsonld]`, language `[xml, rdf]`, citation text
`[jsonld, rdf]`); in particular a non-null value from the highest-priority
source wins regardless of the lower-priority sources, and scalars are never
averaged or concatenated. -/
theorem merge_scalar_priority_coalesce
    (xml_data json_data jsonld_data rdf_data : Option SourceData) (fid : String) :
    (mergeAllFormats xml_data json_data jsonld_data rdf_data fid).title =
      firstNonNull [srcGet json_data SourceData.title, srcGet jsonld_data SourceData.title,
                    srcGet xml_data SourceData.title, srcGet rdf_data SourceData.title] ∧
    (mergeAllFormats xml_data json_data jsonld_data rdf_data fid).abstract =
      firstNonNull [srcGet json_data SourceData.abstract, srcGet jsonld_data SourceData.abstract,
                    srcGet xml_data SourceData.abstract, srcGet rdf_data SourceData.abstract] ∧
    (mergeAllFormats xml_data json_data jsonld_data rdf_data fid).lineage =
      firstNonNull [srcGet json_data SourceData.lineage, srcGet xml_data SourceData.lineage] ∧
    (mergeAllFormats xml_data json_data jsonld_data rdf_data fid).publication_date =
      firstNonNull [srcGet json_data SourceData.publication_date,
                    srcGet xml_data SourceData.publication_date,
                    srcGet jsonld_data SourceData.date_published] ∧
    (mergeAllFormats xml_data json_data jsonld_data rdf_data fid).language =
      firstNonNull [srcGet xml_data SourceData.language, srcGet rdf_data SourceData.language_uri] ∧
    (mergeAllFormats xml_data json_data jsonld_data rdf_data fid).credit_text =
      firstNonNull [srcGet jsonld_data SourceData.credit_text,
                    srcGet rdf_data SourceData.bibliographic_citation] ∧
    (∀ t, srcGet json_data SourceData.title = some t →
      (mergeAllFormats xml_data json_data jsonld_data rdf_data fid).title = some t) ∧
    (∀ a, srcGet json_data SourceData.abstract = some a →
      (mergeAllFormats xml_data json_data jsonld_data rdf_data fid).abstract = some a) := by
  refine ⟨coalesce_eq_firstNonNull _, coalesce_eq_firstNonNull _, coalesce_eq_firstNonNull _,
    coalesce_eq_firstNonNull _, coalesce_eq_firstNonNull _, coalesce_eq_firstNonNull _,
    ?_, ?_⟩
  · intro t ht
    show coalesce [srcGet json_data SourceData.title, srcGet jsonld_data SourceData.title,
                   srcGet xml_data SourceData.title, srcGet rdf_data SourceData.title] = some t
    rw [ht]; rfl
  · intro a ha
    show coalesce [srcGet json_data SourceData.abstract, srcGet jsonld_data SourceData.abstract,
                   srcGet xml_data SourceData.abstract, srcGet rdf_data SourceData.abstract] = some a
    rw [ha]; rfl

/-- Witness for C1 at the spec's worked example: JSON supplies the title
"Soil Carbon UK" while XML supplies a competing value, and the JSON value
wins. -/
theorem merge_scalar_priority_coalesce_witness :
    (mergeAllFormats (some { title := some "Soil-C-UK" })
      (some { title := some "Soil Carbon UK" }) none none "ds-1").title =
      some "Soil Carbon UK" :=
  (merge_scalar_priority_coalesce (some { title := some "Soil-C-UK" })
    (some { title := some "Soil Carbon UK" }) none none "ds-1").2.2.2.2.2.2.1
    "Soil Carbon UK" rfl

end ETL

namespace ETL

/-- Counterexample to C2 as stated: a dataset for which exactly one extractor
(RDF) succeeds but supplies no title is not persisted — `process_dataset`
fails and leaves the store unchanged, because `DatasetRepository.add` rejects
the empty merged title. -/
theorem process_dataset_titleless_counterexample :
    anyIsSome none none none (some { abstract := some "soil data" }) = true ∧
    processDataset none none none (some { abstract := some "soil data" }) "ds-2" [] =
      (none, []) := by
  constructor
  · rfl
  · rfl

/-- C2 (amended): if at least one extractor succeeds and the store accepts
the merged record (non-empty title, usable identifier, no duplicate natural
key), `process_dataset` persists exactly the merged record; if the store
rejects it nothing is persisted; if all four extractors fail, the operation
fails with the state unchanged. -/
theorem process_dataset_degradation_amended
    (xml_data json_data jsonld_data rdf_data : Option SourceData)
    (fid : String) (store store' : List Dataset) :
    (anyIsSome xml_data json_data jsonld_data rdf_data = true →
      repositoryAdd (mergeAllFormats xml_data json_data jsonld_data rdf_data fid) store =
        .ok store' →
      processDataset xml_data json_data jsonld_data rdf_data fid store =
        (some (mergeAllFormats xml_data json_data jsonld_data rdf_data fid), store') ∧
      store' = store ++ [mergeAllFormats xml_data json_data jsonld_data rdf_data fid]) ∧
    (anyIsSome xml_data json_data jsonld_data rdf_data = true →
      (∃ e, repositoryAdd (mergeAllFormats xml_data json_data jsonld_data rdf_data fid) store =
        .error e) →
      processDataset xml_data json_data jsonld_data rdf_data fid store = (none, store)) ∧
    (anyIsSome xml_data json_data jsonld_data rdf_data = false →
      processDataset xml_data json_data jsonld_data rdf_data fid store = (none, store)) := by
  refine ⟨?_, ?_, ?_⟩
  · intro hany hadd
    constructor
    · simp [processDataset, hany, hadd]
    · unfold repositoryAdd at hadd
      split_ifs at hadd
      injection hadd with h
      exact h.symm
  · intro hany hadd
    obtain ⟨e, he⟩ := hadd
    simp [processDataset, hany, he]
  · intro hany
    simp [processDataset, hany]

/-- Witness for C2 (amended): one successful extractor carrying a title
yields a persisted record appended to an empty store. -/
theorem process_dataset_degradation_amended_witness :
    processDataset none (some { title := some "Soil Carbon UK" }) none none "ds-3" [] =
      (some (mergeAllFormats none (some { title := some "Soil Carbon UK" }) none none "ds-3"),
       [] ++ [mergeAllFormats none (some { title := some "Soil Carbon UK" }) none none "ds-3"]) :=
  ((process_dataset_degradation_amended none (some { title := some "Soil Carbon UK" })
    none none "ds-3" []
    ([] ++ [mergeAllFormats none (some { title := some "Soil Carbon UK" }) none none "ds-3"])).1
    rfl rfl).1

/-- C4 (code bug): the merge takes contacts from the highest-priority source
only (JSON, else XML) instead of the documented union-with-deduplication —
an XML-only contact disappears when JSON also carries contacts. -/
theorem merge_contacts_priority_not_union :
    (mergeAllFormats
      (some { contacts := some [{ full_name := some "Xavier Field", email := some "xf@ceh.ac.uk" }] })
      (some { contacts := some [{ full_name := some "Jo Rivers", email := some "jr@ceh.ac.uk" }] })
      none none "ds-4").contacts =
      [{ full_name := some "Jo Rivers", email := some "jr@ceh.ac.uk" }] ∧
    ({ full_name := some "Xavier Field", email := some "xf@ceh.ac.uk" : Contact}) ∉
      (mergeAllFormats
        (some { contacts := some [{ full_name := some "Xavier Field", email := some "xf@ceh.ac.uk" }] })
        (some { contacts := some [{ full_name := some "Jo Rivers", email := some "jr@ceh.ac.uk" }] })
        none none "ds-4").contacts := by
  constructor
  · rfl
  · decide

/-- C5: when at least one format succeeded but the merged title is empty, the
store's validation raises and `process_dataset` persists nothing, yielding no
record. -/
theorem process_dataset_rejects_empty_title
    (xml_data json_data jsonld_data rdf_data : Option SourceData) (fid : String)
    (store : List Dataset)
    (hany : anyIsSome xml_data json_data jsonld_data rdf_data = true)
    (hempty : titleEmptyB (mergeAllFormats xml_data json_data jsonld_data rdf_data fid).title
      = true) :
    repositoryAdd (mergeAllFormats xml_data json_data jsonld_data rdf_data fid) store =
      .error "Dataset title is required" ∧
    processDataset xml_data json_data jsonld_data rdf_data fid store = (none, store) := by
  have herr : repositoryAdd (mergeAllFormats xml_data json_data jsonld_data rdf_data fid) store =
      .error "Dataset title is required" := by
    simp [repositoryAdd, hempty]
  exact ⟨herr, by simp [processDataset, hany, herr]⟩

/-- Witness for C5: a JSON-only extraction with an abstract but no title is
rejected by the repository and nothing is persisted. -/
theorem process_dataset_rejects_empty_title_witness :
    repositoryAdd (mergeAllFormats none (some { abstract := some "river flow" }) none none "ds-5")
      [] = .error "Dataset title is required" ∧
    processDataset none (some { abstract := some "river flow" }) none none "ds-5" [] =
      (none, []) :=
  process_dataset_rejects_empty_title none (some { abstract := some "river flow" }) none none
    "ds-5" [] rfl rfl

end ETL

namespace Extractor

/-- C7 (code bug evaluation): the shared fetch step retries up to the fixed
retry ceiling — three consecutive network failures exhaust the ceiling and
raise `ExtractionError`, a later success within the ceiling is returned, and
`extract` wraps an exhausted fetch into an `ExtractionError` naming the
source and the cause. The code performs the retries back-to-back: no delay,
exponential or otherwise, separates the attempts, contrary to the
`_fetch_data` docstring. -/
theorem fetch_retry_ceiling_behavior :
    fetchData 3 (fun _ => .error "timeout") =
      .error "Failed after 3 attempts: timeout" ∧
    fetchData 3 (fun i => if i = 0 then .error "timeout" else .ok "payload") =
      .ok "payload" ∧
    extract (α := String) "https://catalogue.ceh.ac.uk/documents/a.xml" 3
      (fun _ => .error "timeout") (fun s => .ok s) (fun _ => true) =
      .error
        "Failed to extract from https://catalogue.ceh.ac.uk/documents/a.xml: Failed after 3 attempts: timeout" := by
  refine ⟨rfl, rfl, rfl⟩

end Extractor

namespace SearchAPI

/-- Success of `List.find?` means some member satisfies the predicate. -/
theorem find?_isSome_iff {α : Type} (p : α → Bool) (l : List α) :
    (l.find? p).isSome = true ↔ ∃ x ∈ l, p x = true := by
  induction l with
  | nil => simp [List.find?]
  | cons a l ih =>
    by_cases h : p a
    · simp [List.find?, h]
    · simp only [List.find?, h]
      simp [h, ih]

/-- A record found in the filtered dict also exists in the unfiltered store. -/
theorem dictGet_filter_isSome (db : List DatasetRow) (p : DatasetRow → Bool) (x : String)
    (h : (dictGet (db.filter p) x).isSome = true) :
    (db.find? (fun d => d.id = x)).isSome = true := by
  unfold dictGet at h
  rw [find?_isSome_iff] at h ⊢
  obtain ⟨d, hmem, hp⟩ := h
  exact ⟨d, List.mem_of_mem_filter (List.mem_reverse.mp hmem), hp⟩

/-- The ids emitted by the re-rank loop are the first `topK + 1 - rank` ids
of the candidate hits that survive the filtered dict, in candidate order. -/
theorem rerankLoop_ids (filtered : List DatasetRow) (topK : Nat) :
    ∀ (rs : List EngineResult) (rank : Nat), 1 ≤ rank → rank ≤ topK →
    (rerankLoop filtered topK rs rank).map SearchItem.dataset_id =
      ((rs.filter (fun r => (dictGet filtered r.dataset_id).isSome)).map
        EngineResult.dataset_id).take (topK + 1 - rank) := by
  intro rs
  induction rs with
  | nil => intro rank _ _; simp [rerankLoop]
  | cons r rs ih =>
    intro rank h1 hk
    cases hdev : dictGet filtered r.dataset_id with
    | none =>
      rw [List.filter_cons_of_neg (by simp [hdev])]
      simp only [rerankLoop, hdev]
      exact ih rank h1 hk
    | some d =>
      rw [List.filter_cons_of_pos (by simp [hdev])]
      simp only [rerankLoop, hdev]
      by_cases hlt : topK < rank + 1
      · have hrk : rank = topK := by omega
        subst hrk
        simp [hlt, mkItem, List.take, Nat.add_sub_cancel_left]
      · have hle : rank + 1 ≤ topK := by omega
        have htake : topK + 1 - rank = (topK - rank) + 1 := by omega
        rw [if_neg hlt]
        simp only [List.map_cons, htake, List.take_succ_cons]
        have := ih (rank + 1) (by omega) hle
        have hsub : topK + 1 - (rank + 1) = topK - rank := by omega
        rw [hsub] at this
        rw [this]
        simp [mkItem]

/-- The ids of the semantic endpoint's enriched results are the candidate ids
whose rows exist in the store, in candidate order. -/
theorem filterMap_enrich_ids (db : List DatasetRow) (l : List EngineResult) :
    ((l.filterMap (fun r =>
        (db.find? (fun d => d.id = r.dataset_id)).map (fun d => mkItem r.rank r d))).map
      SearchItem.dataset_id) =
    ((l.filter (fun r => (db.find? (fun d => d.id = r.dataset_id)).isSome)).map
      EngineResult.dataset_id) := by
  induction l with
  | nil => rfl
  | cons r rs ih =>
    cases hdev : db.find? (fun d => d.id = r.dataset_id) with
    | none =>
      rw [List.filterMap_cons, List.filter_cons_of_neg (by simp [hdev])]
      simpa [hdev] using ih
    | some d =>
      rw [List.filterMap_cons, List.filter_cons_of_pos (by simp [hdev])]
      simp only [hdev, Option.map_some']
      rw [List.map_cons, List.map_cons, ih]
      rfl

end SearchAPI

namespace SearchAPI

/-- C3: the hybrid result ids form an order-preserving sublist of the
semantic results for the same query at the over-fetch count `3k`; the output
holds `min k` and the number of surviving candidates many items, hence at
most `k`, and fewer than `k` exactly when filtering starved the candidate
set — all without a second engine query. -/
theorem hybrid_subset_of_semantic
    (engine : String → Nat → List EngineResult) (db : List DatasetRow)
    (req : HybridRequest) (hk : 1 ≤ req.top_k) :
    ((hybrid_search engine db req).map SearchItem.dataset_id).Sublist
      ((semantic_search engine db req.query (req.top_k * 3)).map SearchItem.dataset_id) ∧
    (hybrid_search engine db req).length =
      min req.top_k
        ((engine req.query (req.top_k * 3)).filter
          (fun r => (dictGet
            (db.filter (rowPass req ((engine req.query (req.top_k * 3)).map
              EngineResult.dataset_id)))
            r.dataset_id).isSome)).length ∧
    (hybrid_search engine db req).length ≤ req.top_k := by
  have hids : (hybrid_search engine db req).map SearchItem.dataset_id =
      (((engine req.query (req.top_k * 3)).filter
        (fun r => (dictGet
          (db.filter (rowPass req ((engine req.query (req.top_k * 3)).map
            EngineResult.dataset_id)))
          r.dataset_id).isSome)).map EngineResult.dataset_id).take req.top_k := by
    have h := rerankLoop_ids
      (db.filter (rowPass req ((engine req.query (req.top_k * 3)).map EngineResult.dataset_id)))
      req.top_k (engine req.query (req.top_k * 3)) 1 le_rfl hk
    simpa [hybrid_search, Nat.add_sub_cancel] using h
  have hsem : (semantic_search engine db req.query (req.top_k * 3)).map SearchItem.dataset_id =
      ((engine req.query (req.top_k * 3)).filter
        (fun r => (db.find? (fun d => d.id = r.dataset_id)).isSome)).map
        EngineResult.dataset_id := by
    unfold semantic_search
    exact filterMap_enrich_ids db (engine req.query (req.top_k * 3))
  have hlen : (hybrid_search engine db req).length =
      min req.top_k
        ((engine req.query (req.top_k * 3)).filter
          (fun r => (dictGet
            (db.filter (rowPass req ((engine req.query (req.top_k * 3)).map
              EngineResult.dataset_id)))
            r.dataset_id).isSome)).length := by
    have h := congrArg List.length hids
    simpa [List.length_map, List.length_take] using h
  refine ⟨?_, hlen, ?_⟩
  · rw [hids, hsem]
    refine (List.take_sublist _ _).trans ?_
    exact List.Sublist.map _
      (List.monotone_filter_right _ (fun r hr => dictGet_filter_isSome db _ _ hr))
  · rw [hlen]
    exact Nat.min_le_left _ _

/-- Witness for C3 at a one-record index: the hybrid output's ids form a
sublist of the semantic output's ids and at most one item is returned. -/
theorem hybrid_subset_of_semantic_witness :
    ((hybrid_search (fun _ _ => [⟨1, "d1", "f1", 9⟩])
        [⟨"d1", some "T", none, some 5, ["k1"], ["Ann"], none⟩]
        { query := "q", top_k := 1, keywords := ["k1"] }).map SearchItem.dataset_id).Sublist
      ((semantic_search (fun _ _ => [⟨1, "d1", "f1", 9⟩])
        [⟨"d1", some "T", none, some 5, ["k1"], ["Ann"], none⟩]
        "q" (1 * 3)).map SearchItem.dataset_id) ∧
    (hybrid_search (fun _ _ => [⟨1, "d1", "f1", 9⟩])
      [⟨"d1", some "T", none, some 5, ["k1"], ["Ann"], none⟩]
      { query := "q", top_k := 1, keywords := ["k1"] }).length ≤ 1 :=
  ⟨(hybrid_subset_of_semantic (fun _ _ => [⟨1, "d1", "f1", 9⟩])
      [⟨"d1", some "T", none, some 5, ["k1"], ["Ann"], none⟩]
      { query := "q", top_k := 1, keywords := ["k1"] } (by decide)).1,
   (hybrid_subset_of_semantic (fun _ _ => [⟨1, "d1", "f1", 9⟩])
      [⟨"d1", some "T", none, some 5, ["k1"], ["Ann"], none⟩]
      { query := "q", top_k := 1, keywords := ["k1"] } (by decide)).2.2⟩

/-- C6 (code bug evaluation): the hybrid endpoint applies only the keyword,
author and date predicates — a record whose spatial extent intersects no
requested bounds still reaches the output, because `HybridSearchRequest`
carries no spatial bounds and no spatial predicate is ever built. -/
theorem hybrid_ignores_spatial_bounds :
    hybrid_search (fun _ _ => [⟨1, "d1", "f1", 9⟩])
      [⟨"d1", some "T", none, some 5, ["soil"], ["Ann"], some ⟨0, 1, 0, 1⟩⟩]
      { query := "q", top_k := 2, keywords := ["soil"] } =
      [{ rank := 1, dataset_id := "d1", file_identifier := "f1", similarity_score := 9,
         title := some "T", abstract := none, publication_date := some 5,
         keywords := ["soil"] }] ∧
    spatialIntersects ⟨0, 1, 0, 1⟩ ⟨10, 20, 10, 20⟩ = false := by
  constructor
  · decide
  · decide

end SearchAPI

namespace SearchAPI

/-- Stripping leaves the empty list exactly when every character is
whitespace. -/
theorem stripList_eq_nil_iff (l : List Char) :
    ((l.dropWhile ETL.isPyWhitespace).reverse.dropWhile ETL.isPyWhitespace).reverse = [] ↔
      l.all ETL.isPyWhitespace = true := by
  rw [List.reverse_eq_nil_iff, List.dropWhile_eq_nil_iff, List.all_eq_true]
  constructor
  · intro h x hx
    have hsplit := List.takeWhile_append_dropWhile (p := ETL.isPyWhitespace) (l := l)
    rw [← hsplit] at hx
    rcases List.mem_append.mp hx with h1 | h2
    · exact List.mem_takeWhile_imp h1
    · exact h x (List.mem_reverse.mpr h2)
  · intro h x hx
    have hx2 : x ∈ l.dropWhile ETL.isPyWhitespace := List.mem_reverse.mp hx
    have hsplit := List.takeWhile_append_dropWhile (p := ETL.isPyWhitespace) (l := l)
    have hxl : x ∈ l := by
      rw [← hsplit]
      exact List.mem_append.mpr (Or.inr hx2)
    exact h x hxl

/-- A query strips to the empty string exactly when it is whitespace-only. -/
theorem pyStrip_length_eq_zero_iff (q : String) :
    (pyStrip q).length = 0 ↔ q.toList.all ETL.isPyWhitespace = true := by
  have hlen : (pyStrip q).length =
      (((q.toList.dropWhile ETL.isPyWhitespace).reverse.dropWhile
        ETL.isPyWhitespace).reverse).length := rfl
  rw [hlen, List.length_eq_zero]
  exact stripList_eq_nil_iff q.toList

/-- C8: a query that is empty or whitespace-only, a query longer than 500
characters, or a `top_k` outside `1..100` is rejected before the engine is
consulted; every valid request reaches the engine with the stripped query and
the requested count. -/
theorem semantic_request_validation
    (engine : String → Nat → List EngineResult) (db : List DatasetRow)
    (q : String) (k : Int) :
    ((q.toList.all ETL.isPyWhitespace = true ∨ 500 < q.length ∨ k < 1 ∨ 100 < k) →
      isOkB (searchEndpoint engine db q k) = false) ∧
    (q.toList.all ETL.isPyWhitespace = false → q.length ≤ 500 → 1 ≤ k → k ≤ 100 →
      searchEndpoint engine db q k =
        .ok (semantic_search engine db (pyStrip q) k.toNat)) := by
  constructor
  · intro h
    unfold searchEndpoint mkSemanticSearchRequest
    split_ifs with h1 h2 h3 h4 h5
    · rfl
    · rfl
    · rfl
    · rfl
    · rfl
    · rcases h with h | h | h | h
      · exact absurd ((pyStrip_length_eq_zero_iff q).mpr h) h5
      · exact absurd h h2
      · exact absurd h h3
      · exact absurd h h4
  · intro hws hlen hk1 hk2
    have c1 : ¬(q.length < 1) := by
      intro hc
      have hz : q.toList.length = 0 := by
        have : q.length = q.toList.length := rfl
        omega
      have hnil : q.toList = [] := List.length_eq_zero.mp hz
      rw [hnil] at hws
      simp at hws
    have c5 : ¬((pyStrip q).length = 0) := by
      intro hc
      rw [pyStrip_length_eq_zero_iff, hws] at hc
      exact Bool.false_ne_true hc
    unfold searchEndpoint mkSemanticSearchRequest
    rw [if_neg c1, if_neg (not_lt.mpr hlen), if_neg (not_lt.mpr hk1),
      if_neg (not_lt.mpr hk2), if_neg c5]

/-- Witness for C8: a whitespace-only query is rejected while a padded valid
query reaches the engine stripped. -/
theorem semantic_request_validation_witness :
    isOkB (searchEndpoint (fun _ _ => []) [] "   " 5) = false ∧
    searchEndpoint (fun _ _ => []) [] " soil " 5 =
      .ok (semantic_search (fun _ _ => []) [] (pyStrip " soil ") (Int.toNat 5)) :=
  ⟨(semantic_request_validation (fun _ _ => []) [] "   " 5).1 (Or.inl (by decide)),
   (semantic_request_validation (fun _ _ => []) [] " soil " 5).2
     (by decide) (by decide) (by decide) (by decide)⟩

end SearchAPI

namespace Frontend

/-- A character list beginning with a literal copy of the pattern passes the
begins-with check. -/
theorem startsWithSub_append (pre rest : List Char) :
    SearchAPI.hasSubstr.startsWithSub (pre ++ rest) pre = true := by
  induction pre with
  | nil => cases rest <;> rfl
  | cons c cs ih => simp [SearchAPI.hasSubstr.startsWithSub, ih]

/-- A list passing a begins-with check against a non-empty pattern is
non-empty. -/
theorem ne_nil_of_startsWithSub (t needle : List Char) (hn : needle ≠ [])
    (h : SearchAPI.hasSubstr.startsWithSub t needle = true) : t ≠ [] := by
  intro ht
  subst ht
  cases needle with
  | nil => exact hn rfl
  | cons n ns => simp [SearchAPI.hasSubstr.startsWithSub] at h

/-- C9: `formatOrcidUrl` is total and idempotent — for every non-empty
string the result exists and begins with an `http://` or `https://` scheme,
so a second application returns it unchanged; every falsy input (nullish or
the empty string) maps to null. -/
theorem formatOrcidUrl_idempotent_total :
    (∀ s : List Char, s ≠ [] →
      ∃ t, formatOrcidUrl (some s) = some t ∧
        (SearchAPI.hasSubstr.startsWithSub t "http://".toList ||
         SearchAPI.hasSubstr.startsWithSub t "https://".toList) = true ∧
        formatOrcidUrl (formatOrcidUrl (some s)) = formatOrcidUrl (some s)) ∧
    formatOrcidUrl none = none ∧
    formatOrcidUrl (some []) = none := by
  refine ⟨?_, rfl, rfl⟩
  intro s hs
  cases h1 : (SearchAPI.hasSubstr.startsWithSub s "http://".toList ||
      SearchAPI.hasSubstr.startsWithSub s "https://".toList) with
  | true =>
    have hres : formatOrcidUrl (some s) = some s := by
      rw [formatOrcidUrl]
      rw [if_neg hs, h1]
    refine ⟨s, hres, h1, ?_⟩
    rw [hres]
    exact hres
  | false =>
    cases h2 : SearchAPI.hasSubstr.startsWithSub s "orcid.org/".toList with
    | true =>
      have hres : formatOrcidUrl (some s) = some ("https://".toList ++ s) := by
        rw [formatOrcidUrl]
        rw [if_neg hs, h1, h2]
      have hstart : SearchAPI.hasSubstr.startsWithSub ("https://".toList ++ s)
          "https://".toList = true := startsWithSub_append _ _
      have hcond : (SearchAPI.hasSubstr.startsWithSub ("https://".toList ++ s)
          "http://".toList ||
          SearchAPI.hasSubstr.startsWithSub ("https://".toList ++ s)
          "https://".toList) = true := by
        rw [hstart, Bool.or_true]
      have hne : "https://".toList ++ s ≠ [] :=
        ne_nil_of_startsWithSub _ _ (by decide) hstart
      refine ⟨"https://".toList ++ s, hres, hcond, ?_⟩
      rw [hres]
      rw [formatOrcidUrl]
      rw [if_neg hne, hcond]
    | false =>
      have hres : formatOrcidUrl (some s) =
          some ("https://orcid.org/".toList ++ s) := by
        rw [formatOrcidUrl]
        rw [if_neg hs, h1, h2]
      have hsplit : "https://orcid.org/".toList =
          "https://".toList ++ "orcid.org/".toList := by decide
      have hstart : SearchAPI.hasSubstr.startsWithSub
          ("https://orcid.org/".toList ++ s) "https://".toList = true := by
        rw [hsplit, List.append_assoc]
        exact startsWithSub_append _ _
      have hcond : (SearchAPI.hasSubstr.startsWithSub
          ("https://orcid.org/".toList ++ s) "http://".toList ||
          SearchAPI.hasSubstr.startsWithSub
          ("https://orcid.org/".toList ++ s) "https://".toList) = true := by
        rw [hstart, Bool.or_true]
      have hne : "https://orcid.org/".toList ++ s ≠ [] :=
        ne_nil_of_startsWithSub _ _ (by decide) hstart
      refine ⟨"https://orcid.org/".toList ++ s, hres, hcond, ?_⟩
      rw [hres]
      rw [formatOrcidUrl]
      rw [if_neg hne, hcond]

/-- Witness for C9 at a bare ORCID id. -/
theorem formatOrcidUrl_idempotent_total_witness :
    ∃ t, formatOrcidUrl (some "0000-0002-1825-0097".toList) = some t ∧
      (SearchAPI.hasSubstr.startsWithSub t "http://".toList ||
       SearchAPI.hasSubstr.startsWithSub t "https://".toList) = true ∧
      formatOrcidUrl (formatOrcidUrl (some "0000-0002-1825-0097".toList)) =
        formatOrcidUrl (some "0000-0002-1825-0097".toList) :=
  formatOrcidUrl_idempotent_total.1 "0000-0002-1825-0097".toList (by decide)

/-- C10: after `resetFilters` the derived stores report no active filters —
every filter array is empty, both dates and the spatial extent are null, the
active-filter count is zero and `hasActiveFilters` is false, whatever the
previous state was. -/
theorem resetFilters_clears_all (prev : FilterState) :
    activeFilterCount (resetFilters prev) = 0 ∧
    hasActiveFilters (resetFilters prev) = false ∧
    (resetFilters prev).authors = [] ∧
    (resetFilters prev).organizations = [] ∧
    (resetFilters prev).keywords = [] ∧
    (resetFilters prev).formats = [] ∧
    (resetFilters prev).startDate = none ∧
    (resetFilters prev).endDate = none ∧
    (resetFilters prev).spatialExtent = none := by
  refine ⟨rfl, rfl, rfl, rfl, rfl, rfl, rfl, rfl, rfl⟩

end Frontend
